import Mathlib

/-!
# ShaderTypes.h: the shared host/GPU records `Sphere` and `Uniforms`

`src/Shaders/ShaderTypes.h` declares two plain C structs whose members are
`float`, `vector_float2` and `vector_float3`.  This development embeds

* the member types and the two declarations (member order and types are read
  off the header),
* the C struct layout rule (each member is placed at the next offset that is a
  multiple of its alignment, the struct is padded to a multiple of its own
  alignment), which gives `offsetof` and `sizeof`,
* the records as values, with a 32-bit float represented by its bit pattern,
* a byte-buffer image of a record (members stored at their offsets).
-/

namespace ShaderTypes

/-! ## Member types -/

/-- The three member types that occur in `ShaderTypes.h`. -/
inductive CType where
  | float
  | vector_float2
  | vector_float3
  deriving DecidableEq

/-- Modelled from the spec: `<simd/simd.h>` is included by the header but is not
among the sources, so `sizeof` of its vector types is taken from the spec: a
float is a float32 (4 bytes), a 2-component vector is two lanes (8 bytes), and a
3-component vector is padded to 4-component width (16 bytes). -/
def CType.size : CType → Nat
  | .float => 4
  | .vector_float2 => 8
  | .vector_float3 => 16

/-- Modelled from the spec: `<simd/simd.h>` is not among the sources, so the
alignment of its vector types is taken from the spec: 3-component vectors are
aligned to 16 bytes, 2-component vectors to 8, a float to 4. -/
def CType.align : CType → Nat
  | .float => 4
  | .vector_float2 => 8
  | .vector_float3 => 16

/-! ## C struct layout -/

/-- Least multiple of `a` that is at least `off` (for `a > 0`). -/
def alignUp (off a : Nat) : Nat :=
  (off + a - 1) / a * a

/-- Offsets of the members of a struct, in declaration order, when the first
free byte is `off`: each member goes to the next offset that is a multiple of
its alignment, and the following member starts looking after its last byte. -/
def offsetsFrom (off : Nat) : List CType → List Nat
  | [] => []
  | t :: ts =>
    let o := alignUp off t.align
    o :: offsetsFrom (o + t.size) ts

/-- First free byte after the last member. -/
def endFrom (off : Nat) : List CType → Nat
  | [] => off
  | t :: ts => endFrom (alignUp off t.align + t.size) ts

/-- Alignment of a struct: the largest alignment among its members. -/
def structAlign (ts : List CType) : Nat :=
  ts.foldl (fun a t => max a t.align) 1

/-- Result of `sizeof`: the end of the last member, padded to the struct
alignment. -/
def structSize (ts : List CType) : Nat :=
  alignUp (endFrom 0 ts) (structAlign ts)

/-! ## The two declarations -/

/-- Members of `struct Sphere`. -/
inductive SphereField where
  | center
  | radius
  | color
  | specular
  deriving DecidableEq

/-- Members of `struct Uniforms`. -/
inductive UniformsField where
  | cameraPosition
  | cameraTarget
  | resolution
  | time
  deriving DecidableEq

/-- The declaration `struct Sphere`: members in source order with their types. -/
def Sphere.decl : List (SphereField × CType) :=
  [ (.center, .vector_float3),
    (.radius, .float),
    (.color, .vector_float3),
    (.specular, .float) ]

/-- The declaration `struct Uniforms`: members in source order with their types. -/
def Uniforms.decl : List (UniformsField × CType) :=
  [ (.cameraPosition, .vector_float3),
    (.cameraTarget, .vector_float3),
    (.resolution, .vector_float2),
    (.time, .float) ]

/-- Layout of a declaration: every member with its type and its byte offset. -/
def layout {α : Type} (decl : List (α × CType)) : List (α × CType × Nat) :=
  List.zipWith (fun m o => (m.1, m.2, o)) decl (offsetsFrom 0 (decl.map Prod.snd))

/-- Value of `sizeof` for a declaration. -/
def sizeOf {α : Type} (decl : List (α × CType)) : Nat :=
  structSize (decl.map Prod.snd)

/-- Value of `alignof` for a declaration. -/
def alignOf {α : Type} (decl : List (α × CType)) : Nat :=
  structAlign (decl.map Prod.snd)

/-- Value of `offsetof` for a member of a declaration (`none` when the
declaration has no such member). -/
def offsetOf {α : Type} [DecidableEq α] (decl : List (α × CType)) (f : α) : Option Nat :=
  ((layout decl).find? (fun e => decide (e.1 = f))).map (fun e => e.2.2)

/-- Type of a member of a declaration. -/
def typeOf {α : Type} [DecidableEq α] (decl : List (α × CType)) (f : α) : Option CType :=
  (decl.find? (fun e => decide (e.1 = f))).map Prod.snd

/-- Declared type of a `Sphere` member (the fallback is never taken: every
member is in the declaration). -/
def Sphere.type (f : SphereField) : CType :=
  (typeOf Sphere.decl f).getD .float

/-- Declared type of a `Uniforms` member. -/
def Uniforms.type (f : UniformsField) : CType :=
  (typeOf Uniforms.decl f).getD .float

/-- Byte offset of a `Sphere` member (0 stands in for the impossible lookup
failure; every member is in the declaration). -/
def Sphere.offset (f : SphereField) : Nat :=
  (offsetOf Sphere.decl f).getD 0

/-- Byte offset of a `Uniforms` member. -/
def Uniforms.offset (f : UniformsField) : Nat :=
  (offsetOf Uniforms.decl f).getD 0

/-- Byte size of `struct Sphere`. -/
def Sphere.size : Nat := sizeOf Sphere.decl

/-- Byte size of `struct Uniforms`. -/
def Uniforms.size : Nat := sizeOf Uniforms.decl

/-! ## Values -/

/-- A `float`: an IEEE-754 binary32 value, represented by its 32-bit pattern.
The header only stores and moves floats, so no arithmetic on them is needed. -/
structure float where
  bits : Nat
  isLt : bits < 4294967296
  deriving DecidableEq

/-- A `vector_float2`: two float lanes. -/
structure vector_float2 where
  x : float
  y : float
  deriving DecidableEq

/-- A `vector_float3`: three float lanes (the fourth lane of its 16-byte slot
carries no value). -/
structure vector_float3 where
  x : float
  y : float
  z : float
  deriving DecidableEq

/-- The record `struct Sphere`. -/
structure Sphere where
  center : vector_float3
  radius : float
  color : vector_float3
  specular : float
  deriving DecidableEq

/-- The record `struct Uniforms`. -/
structure Uniforms where
  cameraPosition : vector_float3
  cameraTarget : vector_float3
  resolution : vector_float2
  time : float
  deriving DecidableEq

/-! ## Byte images -/

/-- One byte of memory. -/
abbrev Byte := Fin 256

/-- Bytes `off .. off + n - 1` of a buffer. -/
def load (buf : List Byte) (off n : Nat) : List Byte :=
  (buf.drop off).take n

/-- The buffer with the bytes `bs` written at offset `off`. -/
def store (buf : List Byte) (off : Nat) (bs : List Byte) : List Byte :=
  buf.take off ++ bs ++ buf.drop (off + bs.length)

/-- The four bytes of a float, least significant byte first. -/
def float.toBytes (f : float) : List Byte :=
  [ ⟨f.bits % 256, Nat.mod_lt _ (by decide)⟩,
    ⟨f.bits / 256 % 256, Nat.mod_lt _ (by decide)⟩,
    ⟨f.bits / 65536 % 256, Nat.mod_lt _ (by decide)⟩,
    ⟨f.bits / 16777216 % 256, Nat.mod_lt _ (by decide)⟩ ]

/-- The float held by four bytes, least significant byte first. -/
def float.ofBytes : List Byte → Option float
  | [b0, b1, b2, b3] =>
    some ⟨b0.val + 256 * b1.val + 65536 * b2.val + 16777216 * b3.val, by omega⟩
  | _ => none

/-- The sixteen bytes of a `vector_float3`: three lanes and a zeroed fourth
lane. -/
def vector_float3.toBytes (v : vector_float3) : List Byte :=
  v.x.toBytes ++ v.y.toBytes ++ v.z.toBytes ++ [0, 0, 0, 0]

/-- The `vector_float3` held by sixteen bytes; the fourth lane is ignored. -/
def vector_float3.ofBytes (bs : List Byte) : Option vector_float3 :=
  if bs.length = 16 then do
    let x ← float.ofBytes (load bs 0 4)
    let y ← float.ofBytes (load bs 4 4)
    let z ← float.ofBytes (load bs 8 4)
    pure ⟨x, y, z⟩
  else none

/-- Modelled from the spec: the host code that uploads a `Sphere` is not among
the sources. Serialising stores each field's bytes at that field's offset in a
zeroed buffer of the struct's size. -/
def Sphere.serialise (s : Sphere) : List Byte :=
  let b0 : List Byte := List.replicate Sphere.size 0
  let b1 := store b0 (Sphere.offset .center) s.center.toBytes
  let b2 := store b1 (Sphere.offset .radius) s.radius.toBytes
  let b3 := store b2 (Sphere.offset .color) s.color.toBytes
  store b3 (Sphere.offset .specular) s.specular.toBytes

/-- Modelled from the spec: the paired side that reads a `Sphere` back is not
among the sources. Deserialising loads each field from its offset, as many bytes
as the field's type has. -/
def Sphere.deserialise (buf : List Byte) : Option Sphere := do
  let c ← vector_float3.ofBytes
    (load buf (Sphere.offset .center) (Sphere.type .center).size)
  let r ← float.ofBytes (load buf (Sphere.offset .radius) (Sphere.type .radius).size)
  let k ← vector_float3.ofBytes
    (load buf (Sphere.offset .color) (Sphere.type .color).size)
  let m ← float.ofBytes (load buf (Sphere.offset .specular) (Sphere.type .specular).size)
  pure ⟨c, r, k, m⟩

/-! ## Arrays of spheres -/

/-- Byte offset, from the start of a contiguous array of `Sphere`, at which
element `i` starts: consecutive elements are `sizeof(Sphere)` bytes apart. -/
def Sphere.elemOffset (i : Nat) : Nat :=
  i * Sphere.size

/-- Address of member `f` of element `i` of an array of `Sphere` that starts at
address `base`. -/
def Sphere.fieldAddr (base i : Nat) (f : SphereField) : Nat :=
  base + Sphere.elemOffset i + Sphere.offset f

/-! ## Sample values -/

/-- The float 0.0. -/
def f0 : float := ⟨0x00000000, by decide⟩

/-- The float 1.0. -/
def f1 : float := ⟨0x3F800000, by decide⟩

/-- The float 2.0. -/
def f2 : float := ⟨0x40000000, by decide⟩

/-- The float -1.0. -/
def fNeg1 : float := ⟨0xBF800000, by decide⟩

/-- The float -5.0. -/
def fNeg5 : float := ⟨0xC0A00000, by decide⟩

/-- The sphere of the first scenario: center (0,0,-5), radius 1, color (1,0,0),
specular 0. -/
def sphere0 : Sphere :=
  ⟨⟨f0, f0, fNeg5⟩, f1, ⟨f1, f0, f0⟩, f0⟩

/-! ## Loads and stores -/

theorem float_toBytes_length (f : float) : f.toBytes.length = 4 := rfl

theorem float_ofBytes_toBytes (f : float) : float.ofBytes f.toBytes = some f := by
  obtain ⟨b, hb⟩ := f
  simp only [float.toBytes, float.ofBytes, Option.some.injEq, float.mk.injEq]
  omega

theorem vec3_toBytes_length (v : vector_float3) : v.toBytes.length = 16 := rfl

theorem vec3_ofBytes_toBytes (v : vector_float3) :
    vector_float3.ofBytes v.toBytes = some v := by
  have hx : load v.toBytes 0 4 = v.x.toBytes := rfl
  have hy : load v.toBytes 4 4 = v.y.toBytes := rfl
  have hz : load v.toBytes 8 4 = v.z.toBytes := rfl
  simp [vector_float3.ofBytes, vec3_toBytes_length, hx, hy, hz,
    float_ofBytes_toBytes]

theorem length_store (buf : List Byte) (off : Nat) (bs : List Byte)
    (h : off + bs.length ≤ buf.length) : (store buf off bs).length = buf.length := by
  simp only [store, List.length_append, List.length_take, List.length_drop]
  omega

theorem load_store_same (buf : List Byte) (off : Nat) (bs : List Byte)
    (h : off + bs.length ≤ buf.length) : load (store buf off bs) off bs.length = bs := by
  have hl : (buf.take off).length = off := by
    rw [List.length_take]; omega
  simp only [load, store, List.append_assoc]
  rw [List.drop_append_of_le_length (by omega)]
  rw [List.drop_of_length_le (by omega), List.nil_append]
  exact List.take_left' rfl

theorem load_store_before (buf : List Byte) (off : Nat) (bs : List Byte) (o n : Nat)
    (h : o + n ≤ off) (hb : off ≤ buf.length) :
    load (store buf off bs) o n = load buf o n := by
  have hl : (buf.take off).length = off := by
    rw [List.length_take]; omega
  simp only [load, store, List.append_assoc]
  rw [List.drop_append_of_le_length (by omega)]
  rw [List.take_append_of_le_length (by rw [List.length_drop]; omega)]
  rw [List.drop_take, List.take_take]
  congr 1
  omega

theorem load_store_after (buf : List Byte) (off : Nat) (bs : List Byte) (o n : Nat)
    (h : off + bs.length ≤ o) (hb : off + bs.length ≤ buf.length) :
    load (store buf off bs) o n = load buf o n := by
  have hl : (buf.take off ++ bs).length = off + bs.length := by
    rw [List.length_append, List.length_take]; omega
  simp only [load, store]
  congr 1
  obtain ⟨k, rfl⟩ : ∃ k, o = (buf.take off ++ bs).length + k := ⟨o - (off + bs.length), by omega⟩
  rw [List.drop_append, List.drop_drop, hl]

/-- C2: serialising any `Sphere` into a buffer of the struct's size, each field
stored at its offset, and loading each field back from the same offsets returns
a `Sphere` with the same four fields; in particular for the sphere with center
(0,0,-5), radius 1, color (1,0,0), specular 0. -/
theorem sphere_deserialise_serialise :
    (∀ s : Sphere, s.serialise.length = Sphere.size ∧
      Sphere.deserialise s.serialise = some s) ∧
    Sphere.deserialise sphere0.serialise = some sphere0 := by
  have key : ∀ s : Sphere, s.serialise.length = Sphere.size ∧
      Sphere.deserialise s.serialise = some s := by
    intro s
    have hsz : Sphere.size = 64 := by decide
    have hoc : Sphere.offset .center = 0 := by decide
    have hor : Sphere.offset .radius = 16 := by decide
    have hok : Sphere.offset .color = 32 := by decide
    have hom : Sphere.offset .specular = 48 := by decide
    have htc : (Sphere.type .center).size = 16 := by decide
    have htr : (Sphere.type .radius).size = 4 := by decide
    have htk : (Sphere.type .color).size = 16 := by decide
    have htm : (Sphere.type .specular).size = 4 := by decide
    have lc := vec3_toBytes_length s.center
    have lr := float_toBytes_length s.radius
    have lk := vec3_toBytes_length s.color
    have lm := float_toBytes_length s.specular
    have e0 : (List.replicate 64 (0 : Byte)).length = 64 := List.length_replicate _ _
    generalize hb0 : List.replicate 64 (0 : Byte) = b0 at e0
    have e1 := length_store b0 0 s.center.toBytes (by omega)
    generalize hb1 : store b0 0 s.center.toBytes = b1 at e1
    have e2 := length_store b1 16 s.radius.toBytes (by omega)
    generalize hb2 : store b1 16 s.radius.toBytes = b2 at e2
    have e3 := length_store b2 32 s.color.toBytes (by omega)
    generalize hb3 : store b2 32 s.color.toBytes = b3 at e3
    have e4 := length_store b3 48 s.specular.toBytes (by omega)
    generalize hb4 : store b3 48 s.specular.toBytes = b4 at e4
    have hser : s.serialise = b4 := by
      simp only [Sphere.serialise, hsz, hoc, hor, hok, hom, hb0, hb1, hb2, hb3, hb4]
    have gm : load b4 48 4 = s.specular.toBytes := by
      rw [← hb4, ← lm]; exact load_store_same b3 48 _ (by omega)
    have gk : load b4 32 16 = s.color.toBytes := by
      rw [← hb4, load_store_before b3 48 _ 32 16 (by omega) (by omega), ← hb3, ← lk]
      exact load_store_same b2 32 _ (by omega)
    have gr : load b4 16 4 = s.radius.toBytes := by
      rw [← hb4, load_store_before b3 48 _ 16 4 (by omega) (by omega), ← hb3,
        load_store_before b2 32 _ 16 4 (by omega) (by omega), ← hb2, ← lr]
      exact load_store_same b1 16 _ (by omega)
    have gc : load b4 0 16 = s.center.toBytes := by
      rw [← hb4, load_store_before b3 48 _ 0 16 (by omega) (by omega), ← hb3,
        load_store_before b2 32 _ 0 16 (by omega) (by omega), ← hb2,
        load_store_before b1 16 _ 0 16 (by omega) (by omega), ← hb1, ← lc]
      exact load_store_same b0 0 _ (by omega)
    refine ⟨by rw [hser, hsz]; omega, ?_⟩
    rw [hser]
    simp [Sphere.deserialise, hoc, hor, hok, hom, htc, htr, htk, htm, gm, gk, gr, gc,
      vec3_ofBytes_toBytes, float_ofBytes_toBytes]
  exact ⟨key, (key sphere0).2⟩

/-! ## The records as values -/

/-- C1: for both records, writing a value to any one field and reading that
field back yields exactly the written value, and a record built from four field
values reads back exactly those four values. -/
theorem field_write_read :
    (∀ (r : Sphere) (v : vector_float3), ({ r with center := v } : Sphere).center = v) ∧
    (∀ (r : Sphere) (v : float), ({ r with radius := v } : Sphere).radius = v) ∧
    (∀ (r : Sphere) (v : vector_float3), ({ r with color := v } : Sphere).color = v) ∧
    (∀ (r : Sphere) (v : float), ({ r with specular := v } : Sphere).specular = v) ∧
    (∀ (r : Uniforms) (v : vector_float3),
      ({ r with cameraPosition := v } : Uniforms).cameraPosition = v) ∧
    (∀ (r : Uniforms) (v : vector_float3),
      ({ r with cameraTarget := v } : Uniforms).cameraTarget = v) ∧
    (∀ (r : Uniforms) (v : vector_float2),
      ({ r with resolution := v } : Uniforms).resolution = v) ∧
    (∀ (r : Uniforms) (v : float), ({ r with time := v } : Uniforms).time = v) ∧
    (∀ (c : vector_float3) (r : float) (k : vector_float3) (m : float),
      (Sphere.mk c r k m).center = c ∧ (Sphere.mk c r k m).radius = r ∧
      (Sphere.mk c r k m).color = k ∧ (Sphere.mk c r k m).specular = m) ∧
    (∀ (p t : vector_float3) (q : vector_float2) (d : float),
      (Uniforms.mk p t q d).cameraPosition = p ∧ (Uniforms.mk p t q d).cameraTarget = t ∧
      (Uniforms.mk p t q d).resolution = q ∧ (Uniforms.mk p t q d).time = d) :=
  ⟨fun _ _ => rfl, fun _ _ => rfl, fun _ _ => rfl, fun _ _ => rfl,
    fun _ _ => rfl, fun _ _ => rfl, fun _ _ => rfl, fun _ _ => rfl,
    fun _ _ _ _ => ⟨rfl, rfl, rfl, rfl⟩, fun _ _ _ _ => ⟨rfl, rfl, rfl, rfl⟩⟩

/-- C8: construction is total and validates nothing: every choice of four field
values is the field contents of some `Sphere` (and of some `Uniforms`), among
them a sphere with radius -1, specular 2 and color (2,-1,0), a sphere with
radius 0, and uniforms whose camera position equals the camera target and whose
resolution is (0,-1). -/
theorem construction_total :
    (∀ (c : vector_float3) (r : float) (k : vector_float3) (m : float),
      ∃ s : Sphere, s.center = c ∧ s.radius = r ∧ s.color = k ∧ s.specular = m) ∧
    (∀ (p t : vector_float3) (q : vector_float2) (d : float),
      ∃ u : Uniforms, u.cameraPosition = p ∧ u.cameraTarget = t ∧
        u.resolution = q ∧ u.time = d) ∧
    (∃ s : Sphere, s.radius = fNeg1 ∧ s.specular = f2 ∧ s.color = ⟨f2, fNeg1, f0⟩) ∧
    (∃ s : Sphere, s.radius = f0) ∧
    (∃ u : Uniforms, u.cameraPosition = u.cameraTarget ∧ u.resolution = ⟨f0, fNeg1⟩) :=
  ⟨fun c r k m => ⟨⟨c, r, k, m⟩, rfl, rfl, rfl, rfl⟩,
    fun p t q d => ⟨⟨p, t, q, d⟩, rfl, rfl, rfl, rfl⟩,
    ⟨⟨⟨f0, f0, f0⟩, fNeg1, ⟨f2, fNeg1, f0⟩, f2⟩, rfl, rfl, rfl⟩,
    ⟨⟨⟨f0, f0, f0⟩, f0, ⟨f0, f0, f0⟩, f0⟩, rfl⟩,
    ⟨⟨⟨f0, f0, f0⟩, ⟨f0, f0, f0⟩, ⟨f0, fNeg1⟩, f0⟩, rfl, rfl⟩⟩

/-! ## Layout -/

/-- C4, as claimed, fails: `radius` is not at `offset(center) + 3*4 = 12`. -/
theorem radius_not_in_padding_lane :
    ¬ (Sphere.offset .radius = Sphere.offset .center + 3 * 4 ∧
       Sphere.offset .center + 3 * 4 = 12) := by
  decide

/-- C4, amended: `radius` follows the whole 16-byte slot of `center`, at
`offset(center) + sizeof(vector_float3) = 16`, and no member starts inside the
padding lane of `center` (bytes 12 to 15). -/
theorem radius_follows_center_slot :
    Sphere.offset .radius = Sphere.offset .center + (Sphere.type .center).size ∧
    Sphere.offset .radius = 16 ∧
    (∀ f : SphereField, Sphere.offset f < Sphere.offset .center + 3 * 4 ∨
      Sphere.offset .center + 16 ≤ Sphere.offset f) := by
  refine ⟨by decide, by decide, ?_⟩
  intro f
  cases f <;> decide

/-- C5: `center` is at offset 0, which is 16-byte aligned, and `color` is at the
least multiple of 16 that is at least `offset(radius) + 4`. -/
theorem color_next_aligned_slot (m : Nat) (h16 : 16 ∣ m)
    (hge : Sphere.offset .radius + 4 ≤ m) :
    Sphere.offset .center = 0 ∧ 16 ∣ Sphere.offset .center ∧
    16 ∣ Sphere.offset .color ∧
    Sphere.offset .radius + 4 ≤ Sphere.offset .color ∧
    Sphere.offset .color ≤ m := by
  have hr : Sphere.offset .radius = 16 := by decide
  have hk : Sphere.offset .color = 32 := by decide
  have hc : Sphere.offset .center = 0 := by decide
  rw [hr] at hge
  rw [hr, hk, hc]
  refine ⟨rfl, ?_, ?_, ?_, ?_⟩ <;> omega

/-- Instance of C5 at the candidate slot 48. -/
theorem color_next_aligned_slot_witness :
    16 ∣ 48 ∧ Sphere.offset .radius + 4 ≤ 48 ∧
    (Sphere.offset .center = 0 ∧ 16 ∣ Sphere.offset .center ∧
      16 ∣ Sphere.offset .color ∧
      Sphere.offset .radius + 4 ≤ Sphere.offset .color ∧
      Sphere.offset .color ≤ 48) :=
  ⟨by decide, by decide, color_next_aligned_slot 48 (by decide) (by decide)⟩

/-- C6: `specular` is at `offset(color) + 12` or at `offset(color) + 16`, and no
member lies strictly between `color` and `specular`. -/
theorem specular_follows_color :
    (Sphere.offset .specular = Sphere.offset .color + 12 ∨
      Sphere.offset .specular = Sphere.offset .color + 16) ∧
    (∀ f : SphereField, Sphere.offset f ≤ Sphere.offset .color ∨
      Sphere.offset .specular ≤ Sphere.offset f) := by
  refine ⟨by decide, ?_⟩
  intro f
  cases f <;> decide

/-- C7: in `Uniforms`, `cameraPosition` is at offset 0 (16-byte aligned),
`cameraTarget` at the next 16-byte slot (16), `resolution` at the slot after it
(32), and `time` right after the two lanes of `resolution` (32 + 8 = 40). The
layout belongs to the type, so it is that of every value, such as
cameraPosition (0,0,0), cameraTarget (0,0,-1), resolution (800,600), time 0. -/
theorem uniforms_layout :
    Uniforms.offset .cameraPosition = 0 ∧ 16 ∣ Uniforms.offset .cameraPosition ∧
    Uniforms.offset .cameraTarget = Uniforms.offset .cameraPosition + 16 ∧
    Uniforms.offset .cameraTarget = 16 ∧ 16 ∣ Uniforms.offset .cameraTarget ∧
    Uniforms.offset .resolution = Uniforms.offset .cameraTarget + 16 ∧
    Uniforms.offset .resolution = 32 ∧ 16 ∣ Uniforms.offset .resolution ∧
    Uniforms.offset .time = Uniforms.offset .resolution + 8 ∧
    Uniforms.offset .time = 40 ∧
    (layout Uniforms.decl).map (fun e => e.1) =
      [.cameraPosition, .cameraTarget, .resolution, .time] := by
  decide

/-- C9: for both records the members sit at strictly increasing offsets in
declaration order, each offset is a multiple of the alignment of the member type
(16, 8 and 4 for `vector_float3`, `vector_float2` and `float`), the byte ranges
of two distinct members do not overlap, and every member ends within the
struct. -/
theorem layout_well_formed :
    (CType.align .vector_float3 = 16 ∧ CType.align .vector_float2 = 8 ∧
      CType.align .float = 4) ∧
    ((layout Sphere.decl).map (fun e => e.1) = [.center, .radius, .color, .specular] ∧
      List.Pairwise (fun a b => a < b) ((layout Sphere.decl).map (fun e => e.2.2)) ∧
      (∀ f : SphereField, Sphere.offset f % (Sphere.type f).align = 0) ∧
      (∀ f g : SphereField, f ≠ g →
        Sphere.offset f + (Sphere.type f).size ≤ Sphere.offset g ∨
        Sphere.offset g + (Sphere.type g).size ≤ Sphere.offset f) ∧
      (∀ f : SphereField, Sphere.offset f + (Sphere.type f).size ≤ Sphere.size)) ∧
    ((layout Uniforms.decl).map (fun e => e.1) =
        [.cameraPosition, .cameraTarget, .resolution, .time] ∧
      List.Pairwise (fun a b => a < b) ((layout Uniforms.decl).map (fun e => e.2.2)) ∧
      (∀ f : UniformsField, Uniforms.offset f % (Uniforms.type f).align = 0) ∧
      (∀ f g : UniformsField, f ≠ g →
        Uniforms.offset f + (Uniforms.type f).size ≤ Uniforms.offset g ∨
        Uniforms.offset g + (Uniforms.type g).size ≤ Uniforms.offset f) ∧
      (∀ f : UniformsField, Uniforms.offset f + (Uniforms.type f).size ≤ Uniforms.size)) := by
  refine ⟨by decide, ⟨by decide, by decide, ?_, ?_, ?_⟩, ⟨by decide, by decide, ?_, ?_, ?_⟩⟩
  · intro f; cases f <;> decide
  · intro f g; cases f <;> cases g <;> decide
  · intro f; cases f <;> decide
  · intro f; cases f <;> decide
  · intro f g; cases f <;> cases g <;> decide
  · intro f; cases f <;> decide

/-- Instance of C9: `radius` and `color` are distinct and their byte ranges do
not overlap. -/
theorem layout_well_formed_witness :
    SphereField.radius ≠ SphereField.color ∧
    (Sphere.offset .radius + (Sphere.type .radius).size ≤ Sphere.offset .color ∨
      Sphere.offset .color + (Sphere.type .color).size ≤ Sphere.offset .radius) :=
  ⟨by decide, layout_well_formed.2.1.2.2.2.1 .radius .color (by decide)⟩

/-- C10: `sizeof(Sphere)` is 64 and `sizeof(Uniforms)` is 48, both multiples of
the 16-byte struct alignment; element `i` of a contiguous array of `Sphere`
starts at byte `64 * i`, and when the array starts at a 16-byte-aligned address
the `center` and `color` members of every element are 16-byte aligned. -/
theorem sphere_array_aligned (base i : Nat) (hbase : base % 16 = 0) :
    Sphere.size = 64 ∧ Uniforms.size = 48 ∧
    alignOf Sphere.decl = 16 ∧ alignOf Uniforms.decl = 16 ∧
    Sphere.size % alignOf Sphere.decl = 0 ∧
    Uniforms.size % alignOf Uniforms.decl = 0 ∧
    Sphere.elemOffset i = 64 * i ∧
    Sphere.fieldAddr base i .center % 16 = 0 ∧
    Sphere.fieldAddr base i .color % 16 = 0 := by
  have hs : Sphere.size = 64 := by decide
  have hc : Sphere.offset .center = 0 := by decide
  have hk : Sphere.offset .color = 32 := by decide
  refine ⟨hs, by decide, by decide, by decide, by decide, by decide, ?_, ?_, ?_⟩
  · rw [Sphere.elemOffset, hs]; omega
  · rw [Sphere.fieldAddr, Sphere.elemOffset, hs, hc]; omega
  · rw [Sphere.fieldAddr, Sphere.elemOffset, hs, hk]; omega

/-- Instance of C10: an array at address 4096, element 3. -/
theorem sphere_array_aligned_witness :
    4096 % 16 = 0 ∧
    (Sphere.size = 64 ∧ Uniforms.size = 48 ∧
      alignOf Sphere.decl = 16 ∧ alignOf Uniforms.decl = 16 ∧
      Sphere.size % alignOf Sphere.decl = 0 ∧
      Uniforms.size % alignOf Uniforms.decl = 0 ∧
      Sphere.elemOffset 3 = 64 * 3 ∧
      Sphere.fieldAddr 4096 3 .center % 16 = 0 ∧
      Sphere.fieldAddr 4096 3 .color % 16 = 0) :=
  ⟨by decide, sphere_array_aligned 4096 3 (by decide)⟩

end ShaderTypes
